import Mathlib

/-!
Shallow embedding of `keithley2100_VISADriver.py` (class `Keithley2100VISADriver`).

The two stateful methods the claims are about, `set_mode` and `data`, are
embedded as pure Lean functions: the instrument transport is replaced by the
list of commands the method writes (and queries it issues), the instance
attributes `sample_count_1`, `reading_scan_list` and `current_mode` become an
explicit `DriverState` record passed in and returned, and the externally
populated attributes `modes_channels_dict` / `channels_scan_list` become an
explicit `ChannelConfig` input.  Python runtime errors that the methods can
raise (`KeyError` from the mode dictionary, `IndexError` from the timestamp
list, `ValueError` from `float`/`numpy` parsing) are modelled as explicit
error results.  Numeric parsing of instrument tokens is modelled exactly over
`ℚ` (the decimal/exponent grammar accepted by Python's `float` on the
instrument's token alphabet), so that decoded values are exact.
-/

namespace Keithley2100

/-- Python list-prefix test: `listPrefixOf p s` is true when `p` is an initial
segment of `s` (used to embed Python's substring operator `in`). -/
def listPrefixOf : List Char → List Char → Bool
  | [], _ => true
  | _ :: _, [] => false
  | a :: as, b :: bs => a == b && listPrefixOf as bs

/-- Python substring test `needle in hay` (on the character sequences). -/
def strHasSub (hay needle : String) : Bool :=
  (List.range (hay.data.length + 1)).any (fun i => listPrefixOf needle.data (hay.data.drop i))

/-- Python `str.upper()` restricted to the ASCII alphabet of mode strings. -/
def pyUpper (s : String) : String :=
  String.mk (s.data.map Char.toUpper)

/-- Python slice `s[n:]` (by characters). -/
def pyDrop (s : String) (n : Nat) : String :=
  String.mk (s.data.drop n)

/-- Number of `,` characters in a string: Python's `s.count(',')`, used by
`set_mode` to derive the sample count from the channel-set string. -/
def countComma (s : String) : Nat :=
  s.data.count ','

/-- Python `sep.join(parts)`. -/
def joinSep (sep : String) : List String → String
  | [] => ""
  | [a] => a
  | a :: b :: r => a ++ sep ++ joinSep sep (b :: r)

/-- Python `str(xs)[1:-1]` for a list `xs`: the elements' representations
joined by `", "`.  Dictionary values are modelled as the already-rendered
representation of each channel element (e.g. `"101"`). -/
def pyListInner (xs : List String) : String :=
  joinSep (", ") xs

/-- Mutable driver attributes referenced by `set_mode` and `data`:
`sample_count_1`, `reading_scan_list`, `current_mode`. -/
structure DriverState where
  sample_count_1 : Bool
  reading_scan_list : Bool
  current_mode : String
  deriving DecidableEq

/-- Externally populated channel model: `modes_channels_dict` (the channels
assigned to every measurement-function token) and `channels_scan_list` (the
pre-rendered scan-list string, e.g. `"101,102"`).  These attributes are set on
the driver object by the plugin layer; `set_mode` only reads them. -/
structure ChannelConfig where
  modes_channels_dict : List (String × List String)
  channels_scan_list : String
  deriving DecidableEq

/-- Outcome of a `set_mode` call: the updated attributes and the returned
value (`none` models Python's implicit `return None` of the front-panel
branch), or the `KeyError` raised by `self.modes_channels_dict[mode]`,
carrying the attributes as already mutated before the raise. -/
inductive SMRes where
  | ok (st : DriverState) (ret : Option String)
  | keyError (st : DriverState) (key : String)
  deriving DecidableEq

/-- State carried by a `set_mode` outcome (mutations before a `KeyError`
included). -/
def SMRes.stateOf : SMRes → DriverState
  | SMRes.ok st _ => st
  | SMRes.keyError st _ => st

/-- True when a `set_mode` call completed without raising. -/
def SMRes.isOk : SMRes → Bool
  | SMRes.ok _ _ => true
  | SMRes.keyError _ _ => false

/-- Embedding of `Keithley2100VISADriver.set_mode` (lines 198-275): the list
of commands written to the instrument, in order, together with the resulting
attributes and return value. -/
def set_mode (mode0 : String) (cfg : ChannelConfig) (st : DriverState) : List String × SMRes :=
  let mode := pyUpper mode0
  if strHasSub mode ("SCAN") = false then
    (["INIT:CONT ON", "FUNC \x27" ++ mode ++ "\x27"],
     SMRes.ok ⟨true, false, st.current_mode⟩ none)
  else
    let mode1 := pyDrop mode 5
    if strHasSub mode1 ("SCAN_LIST") = true then
      let channels := "(@" ++ cfg.channels_scan_list ++ ")"
      let samp_count := 1 + countComma channels
      (["TRAC:CLE", "INIT:CONT OFF", "TRIG:COUN 1", "TRIG:SOUR BUS",
        "SAMP:COUN " ++ Nat.repr samp_count, "ROUT:SCAN:LSEL NONE",
        "ROUT:SCAN " ++ channels, "ROUT:SCAN:TSO IMM", "ROUT:SCAN:LSEL INT"],
       SMRes.ok ⟨false, true, mode1⟩ (some channels))
    else
      match List.lookup mode1 cfg.modes_channels_dict with
      | none =>
        (["TRAC:CLE", "INIT:CONT OFF"],
         SMRes.keyError ⟨st.sample_count_1, false, mode1⟩ mode1)
      | some chans =>
        let channels := "(@" ++ pyListInner chans ++ ")"
        let samp_count := 1 + countComma channels
        if samp_count = 1 then
          (["TRAC:CLE", "INIT:CONT OFF", "TRIG:COUN 1", "SAMP:COUN " ++ Nat.repr samp_count,
            "INIT:CONT ON", "TRIG:SOUR IMM", "ROUT:SCAN:LSEL NONE", "ROUT:CLOS " ++ channels,
            "FUNC \x27" ++ mode1 ++ "\x27"],
           SMRes.ok ⟨true, false, mode1⟩ (some channels))
        else
          (["TRAC:CLE", "INIT:CONT OFF", "TRIG:COUN 1", "SAMP:COUN " ++ Nat.repr samp_count,
            "TRIG:SOUR BUS", "ROUT:SCAN:LSEL NONE", "ROUT:SCAN " ++ channels,
            "ROUT:SCAN:TSO IMM", "ROUT:SCAN:LSEL INT"],
           SMRes.ok ⟨false, false, mode1⟩ (some channels))

/-- A configuration with two channels assigned to `VOLT:DC` and the scan-list
string `"101,102"`. -/
def cfg0 : ChannelConfig :=
  ⟨[("VOLT:DC", ["101", "102"])], "101,102"⟩

/-- A configuration in which the function `VOLT:DC` has zero assigned
channels and the scan list is empty. -/
def cfgEmptyVDC : ChannelConfig :=
  ⟨[("VOLT:DC", [])], ""⟩

/-- A driver state with both flags cleared and no current mode. -/
def st0 : DriverState :=
  ⟨false, false, ""⟩





/-- An instrument transaction of the `data` method: a written command or a
query. -/
inductive Action where
  | write (cmd : String)
  | query (cmd : String)
  deriving DecidableEq

/-- Python runtime errors that `data` can raise: the `IndexError` from
`list_times[j]` when the timestamp token list is shorter than the measurement
token list, and the `ValueError` from `numpy.array(..., dtype=float)` when a
stripped token does not parse as a float. -/
inductive PyErr where
  | indexError
  | valueError (tok : String)
  deriving DecidableEq

/-- Result of one `data` call: the raw answer together with the measurement
values and timestamps (exact rationals), or the Python error raised. -/
inductive DRes where
  | ok (answer : String) (values : List ℚ) (times : List ℚ)
  | err (e : PyErr)
  deriving DecidableEq

/-- Python `s.split(",")` on the character list (non-empty separator):
`""` splits to `[""]`, and consecutive separators yield empty tokens. -/
def pySplit (sep : Char) : List Char → List (List Char)
  | [] => [[]]
  | c :: rest =>
    let r := pySplit sep rest
    if c == sep then [] :: r
    else
      match r with
      | [] => [[c]]
      | h :: t => (c :: h) :: t

/-- Python `s.split(",")` as strings. -/
def pySplitStr (s : String) : List String :=
  (pySplit ',' s.data).map String.mk

/-- Python slice `[::3]`: every third element starting at index 0. -/
def stride0 : List String → List String
  | [] => []
  | [a] => [a]
  | [a, _] => [a]
  | a :: _ :: _ :: rest => a :: stride0 rest

/-- Python slice `[1::3]`: every third element starting at index 1. -/
def stride1 : List String → List String
  | [] => []
  | [_] => []
  | [_, b] => [b]
  | _ :: b :: _ :: rest => b :: stride1 rest

/-- Unit stripping of one token (the reverse character scan of `data`): drop
the trailing run of non-digit characters; `none` when the token contains no
digit at all, in which case the loop appends nothing for this token. -/
def stripUnits (t : String) : Option String :=
  let r := t.data.reverse.dropWhile (fun c => !c.isDigit)
  if r.isEmpty then none else some (String.mk r.reverse)

/-- The `for j in range(len(list_measurements))` loop of `data`: each
measurement token is unit-stripped and the timestamp token of the same index
is unit-stripped; when the timestamp list is exhausted first, the access
`list_times[j]` raises `IndexError`. -/
def stripPass : List String → List String → Except PyErr (List (Option String) × List (Option String))
  | [], _ => Except.ok ([], [])
  | _ :: _, [] => Except.error PyErr.indexError
  | m :: ms, t :: ts =>
    match stripPass ms ts with
    | Except.error e => Except.error e
    | Except.ok (rm, rt) => Except.ok (stripUnits m :: rm, stripUnits t :: rt)

/-- Value of a digit run (most significant first). -/
def digitsVal (cs : List Char) : Nat :=
  cs.foldl (fun a c => a * 10 + (c.toNat - 48)) 0

/-- Python `float(s)` on the instrument token alphabet, exactly over `ℚ`:
optional sign, decimal mantissa with optional fraction part, optional
decimal exponent.  `none` models the `ValueError` raised for anything else
(in particular the empty string). -/
def pyFloat? (s : String) : Option ℚ :=
  let p :=
    match s.data with
    | '+' :: r => ((1 : ℤ), r)
    | '-' :: r => ((-1 : ℤ), r)
    | r => ((1 : ℤ), r)
  let sgn := p.1
  let body := p.2
  let mant := body.takeWhile (fun c => !(c == 'e' || c == 'E'))
  let expPart := body.dropWhile (fun c => !(c == 'e' || c == 'E'))
  let expOpt : Option ℤ :=
    match expPart with
    | [] => some 0
    | _ :: er =>
      let q :=
        match er with
        | '+' :: r => ((1 : ℤ), r)
        | '-' :: r => ((-1 : ℤ), r)
        | r => ((1 : ℤ), r)
      if q.2.isEmpty = false && q.2.all Char.isDigit then some (q.1 * (digitsVal q.2 : ℤ))
      else none
  match expOpt with
  | none => none
  | some e =>
    let ip := mant.takeWhile (fun c => !(c == '.'))
    let fracPart := mant.dropWhile (fun c => !(c == '.'))
    let fp := match fracPart with | [] => ([] : List Char) | _ :: r => r
    if (ip.isEmpty = false || fp.isEmpty = false) && ip.all Char.isDigit && fp.all Char.isDigit then
      let m : ℤ := sgn * ((digitsVal ip * 10 ^ fp.length + digitsVal fp : Nat) : ℤ)
      let tot : ℤ := e - (fp.length : ℤ)
      some (if 0 ≤ tot then mkRat (m * ((10 ^ Int.toNat tot : Nat) : ℤ)) 1
            else mkRat m (10 ^ Int.toNat (-tot)))
    else none

/-- `numpy.array(tokens, dtype=float)`: every token must parse, otherwise the
call raises `ValueError`. -/
def parseFloats : List String → Except PyErr (List ℚ)
  | [] => Except.ok []
  | t :: ts =>
    match pyFloat? t with
    | none => Except.error (PyErr.valueError t)
    | some q =>
      match parseFloats ts with
      | Except.error e => Except.error e
      | Except.ok qs => Except.ok (q :: qs)

/-- Tail of `data` after the stripping loop succeeded: rebuild the
comma-joined strings `str_measurements` / `str_times`, re-split them, parse
the measurements, and parse the timestamps only when `sample_count_1` is
false (otherwise the timestamps are `[0]`). -/
def decodeStripped (sample_count_1 : Bool) (reply : String)
    (sm sts : List (Option String)) : DRes :=
  let strMeas := joinSep (",") (sm.map (fun o => o.getD ("")))
  let strTimes := joinSep (",") (sts.map (fun o => o.getD ("")))
  let mtoks := pySplitStr strMeas
  let ttoks := pySplitStr strTimes
  match parseFloats mtoks with
  | Except.error e => DRes.err e
  | Except.ok mv =>
    if sample_count_1 = false then
      match parseFloats ttoks with
      | Except.error e => DRes.err e
      | Except.ok tv => DRes.ok reply mv tv
    else DRes.ok reply mv [0]

/-- Decoding part of `Keithley2100VISADriver.data` (lines 113-154), as a
function of the raw `FETCH?` reply. -/
def decodeReply (sample_count_1 : Bool) (reply : String) : DRes :=
  match stripPass (stride0 (pySplitStr reply)) (stride1 (pySplitStr reply)) with
  | Except.error e => DRes.err e
  | Except.ok (sm, sts) => decodeStripped sample_count_1 reply sm sts

/-- Instrument transactions issued by `data` (lines 104-112): initiate and
trigger before the fetch query unless `sample_count_1` is set, in which case
only the fetch query is issued. -/
def dataActs (sample_count_1 : Bool) : List Action :=
  if sample_count_1 = false then
    [Action.write ("INIT"), Action.write ("*TRG"), Action.query ("FETCH?")]
  else [Action.query ("FETCH?")]

/-- Embedding of `Keithley2100VISADriver.data` (lines 96-154): the
transactions issued and the decode of the reply returned by the `FETCH?`
query. -/
def data (sample_count_1 : Bool) (reply : String) : List Action × DRes :=
  (dataActs sample_count_1, decodeReply sample_count_1 reply)




/-! Helper lemmas. -/

theorem strData_append (s t : String) : (s ++ t).data = s.data ++ t.data := by
  cases s; cases t; rfl

theorem countComma_append (s t : String) : countComma (s ++ t) = countComma s + countComma t := by
  unfold countComma
  rw [strData_append, List.count_append]

theorem countComma_joinSep (sep : String) (l : List String)
    (h : ∀ s ∈ l, countComma s = 0) :
    countComma (joinSep sep l) = (l.length - 1) * countComma sep := by
  induction l with
  | nil => simp [joinSep, countComma]
  | cons a t ih =>
    cases t with
    | nil =>
      simp [joinSep, h a (by simp)]
    | cons b r =>
      have ha : countComma a = 0 := h a (by simp)
      have ht : ∀ s ∈ b :: r, countComma s = 0 := fun s hs => h s (by simp [hs])
      have ih' := ih ht
      simp only [joinSep, countComma_append, ha, ih']
      simp [List.length_cons, Nat.succ_mul]
      ring

theorem countComma_parens (s : String) :
    countComma ("(@" ++ s ++ ")") = countComma s := by
  rw [countComma_append, countComma_append]
  have h1 : countComma ("(@") = 0 := by decide
  have h2 : countComma (")") = 0 := by decide
  omega

theorem stride0_length_aux : ∀ (n : Nat) (l : List String), l.length ≤ n →
    (stride0 l).length = (l.length + 2) / 3 := by
  intro n
  induction n with
  | zero =>
    intro l hl
    rcases l with _ | ⟨a, t⟩
    · simp [stride0]
    · simp at hl
  | succ n ih =>
    intro l hl
    rcases l with _ | ⟨a, _ | ⟨b, _ | ⟨c, rest⟩⟩⟩
    · simp [stride0]
    · simp [stride0]
    · simp [stride0]
    · have h1 : rest.length ≤ n := by simp at hl; omega
      have h2 := ih rest h1
      simp only [stride0, List.length_cons, h2]
      omega

theorem stride0_length (l : List String) : (stride0 l).length = (l.length + 2) / 3 :=
  stride0_length_aux l.length l (Nat.le_refl _)

theorem stride1_length_aux : ∀ (n : Nat) (l : List String), l.length ≤ n →
    (stride1 l).length = (l.length + 1) / 3 := by
  intro n
  induction n with
  | zero =>
    intro l hl
    rcases l with _ | ⟨a, t⟩
    · simp [stride1]
    · simp at hl
  | succ n ih =>
    intro l hl
    rcases l with _ | ⟨a, _ | ⟨b, _ | ⟨c, rest⟩⟩⟩
    · simp [stride1]
    · simp [stride1]
    · simp [stride1]
    · have h1 : rest.length ≤ n := by simp at hl; omega
      have h2 := ih rest h1
      simp only [stride1, List.length_cons, h2]
      omega

theorem stride1_length (l : List String) : (stride1 l).length = (l.length + 1) / 3 :=
  stride1_length_aux l.length l (Nat.le_refl _)

theorem stripPass_err : ∀ (ms ts : List String), ts.length < ms.length →
    stripPass ms ts = Except.error PyErr.indexError := by
  intro ms
  induction ms with
  | nil => intro ts h; simp at h
  | cons m ms ih =>
    intro ts h
    cases ts with
    | nil => simp [stripPass]
    | cons t ts =>
      have h' : ts.length < ms.length := by simp at h; omega
      simp [stripPass, ih ts h']

/-! Path equations for `set_mode`. -/

theorem set_mode_front (mode0 : String) (cfg : ChannelConfig) (st : DriverState)
    (h : strHasSub (pyUpper mode0) ("SCAN") = false) :
    set_mode mode0 cfg st =
      (["INIT:CONT ON", "FUNC \x27" ++ pyUpper mode0 ++ "\x27"],
       SMRes.ok ⟨true, false, st.current_mode⟩ none) := by
  simp [set_mode, h]

theorem set_mode_scan_list (mode0 : String) (cfg : ChannelConfig) (st : DriverState)
    (h1 : strHasSub (pyUpper mode0) ("SCAN") = true)
    (h2 : strHasSub (pyDrop (pyUpper mode0) 5) ("SCAN_LIST") = true) :
    set_mode mode0 cfg st =
      (["TRAC:CLE", "INIT:CONT OFF", "TRIG:COUN 1", "TRIG:SOUR BUS",
        "SAMP:COUN " ++ Nat.repr (1 + countComma ("(@" ++ cfg.channels_scan_list ++ ")")),
        "ROUT:SCAN:LSEL NONE",
        "ROUT:SCAN " ++ ("(@" ++ cfg.channels_scan_list ++ ")"),
        "ROUT:SCAN:TSO IMM", "ROUT:SCAN:LSEL INT"],
       SMRes.ok ⟨false, true, pyDrop (pyUpper mode0) 5⟩
         (some ("(@" ++ cfg.channels_scan_list ++ ")"))) := by
  simp [set_mode, h1, h2]

theorem set_mode_rear_keyError (mode0 : String) (cfg : ChannelConfig) (st : DriverState)
    (h1 : strHasSub (pyUpper mode0) ("SCAN") = true)
    (h2 : strHasSub (pyDrop (pyUpper mode0) 5) ("SCAN_LIST") = false)
    (h3 : List.lookup (pyDrop (pyUpper mode0) 5) cfg.modes_channels_dict = none) :
    set_mode mode0 cfg st =
      (["TRAC:CLE", "INIT:CONT OFF"],
       SMRes.keyError ⟨st.sample_count_1, false, pyDrop (pyUpper mode0) 5⟩
         (pyDrop (pyUpper mode0) 5)) := by
  simp [set_mode, h1, h2, h3]

theorem set_mode_rear_one (mode0 : String) (cfg : ChannelConfig) (st : DriverState)
    (chans : List String)
    (h1 : strHasSub (pyUpper mode0) ("SCAN") = true)
    (h2 : strHasSub (pyDrop (pyUpper mode0) 5) ("SCAN_LIST") = false)
    (h3 : List.lookup (pyDrop (pyUpper mode0) 5) cfg.modes_channels_dict = some chans)
    (h4 : 1 + countComma ("(@" ++ pyListInner chans ++ ")") = 1) :
    set_mode mode0 cfg st =
      (["TRAC:CLE", "INIT:CONT OFF", "TRIG:COUN 1",
        "SAMP:COUN " ++ Nat.repr (1 + countComma ("(@" ++ pyListInner chans ++ ")")),
        "INIT:CONT ON", "TRIG:SOUR IMM", "ROUT:SCAN:LSEL NONE",
        "ROUT:CLOS " ++ ("(@" ++ pyListInner chans ++ ")"),
        "FUNC \x27" ++ pyDrop (pyUpper mode0) 5 ++ "\x27"],
       SMRes.ok ⟨true, false, pyDrop (pyUpper mode0) 5⟩
         (some ("(@" ++ pyListInner chans ++ ")"))) := by
  simp [set_mode, h1, h2, h3, h4]

theorem set_mode_rear_multi (mode0 : String) (cfg : ChannelConfig) (st : DriverState)
    (chans : List String)
    (h1 : strHasSub (pyUpper mode0) ("SCAN") = true)
    (h2 : strHasSub (pyDrop (pyUpper mode0) 5) ("SCAN_LIST") = false)
    (h3 : List.lookup (pyDrop (pyUpper mode0) 5) cfg.modes_channels_dict = some chans)
    (h4 : ¬(1 + countComma ("(@" ++ pyListInner chans ++ ")") = 1)) :
    set_mode mode0 cfg st =
      (["TRAC:CLE", "INIT:CONT OFF", "TRIG:COUN 1",
        "SAMP:COUN " ++ Nat.repr (1 + countComma ("(@" ++ pyListInner chans ++ ")")),
        "TRIG:SOUR BUS", "ROUT:SCAN:LSEL NONE",
        "ROUT:SCAN " ++ ("(@" ++ pyListInner chans ++ ")"),
        "ROUT:SCAN:TSO IMM", "ROUT:SCAN:LSEL INT"],
       SMRes.ok ⟨false, false, pyDrop (pyUpper mode0) 5⟩
         (some ("(@" ++ pyListInner chans ++ ")"))) := by
  simp [set_mode, h1, h2, h3, h4]

/-! Claim theorems. -/

/-- C1: the specification states that the decoder invoked with
`singleSampleMode = true` on the raw reply `"-5.0000E-01ADC"` (a single
comma-delimited token) succeeds with `values = [-0.5]` and
`timestamps = [0.0]`.  The code disagrees: with a single token the timestamp
slice `[1::3]` is empty, so the stripping loop's access `list_times[0]`
raises `IndexError` before any numeric parsing.  This theorem evaluates the
embedded `data` at that failing input. -/
theorem data_single_sample_single_token_index_error :
    data true ("-5.0000E-01ADC") = ([Action.query ("FETCH?")], DRes.err PyErr.indexError) := by
  decide

/-- C9: for every raw reply whose comma-split token count is congruent to 1
modulo 3, the decoder's stripping loop runs out of timestamp tokens and the
`list_times[j]` access raises `IndexError`, regardless of `sample_count_1`;
the resulting error is the `IndexError` (not a parse `ValueError`), so no
numeric parsing of the measurement values completes. -/
theorem data_token_count_mod3_one_index_error (sc : Bool) (reply : String)
    (h : (pySplitStr reply).length % 3 = 1) :
    (data sc reply).2 = DRes.err PyErr.indexError := by
  have hlt : (stride1 (pySplitStr reply)).length < (stride0 (pySplitStr reply)).length := by
    rw [stride0_length, stride1_length]
    omega
  have herr := stripPass_err _ _ hlt
  simp [data, decodeReply, herr]

/-- C9 witness: the four-token reply `"a,b,c,d"` (4 ≡ 1 mod 3) makes the
decoder raise `IndexError`. -/
theorem data_token_count_mod3_one_index_error_witness :
    (pySplitStr ("a,b,c,d")).length % 3 = 1 ∧
    (data false ("a,b,c,d")).2 = DRes.err PyErr.indexError :=
  ⟨by decide, data_token_count_mod3_one_index_error false ("a,b,c,d") (by decide)⟩

/-- C7: decoding the raw reply
`"+1.23456E-03VDC,+0.01SEC,+1RDNG#,+2.00000E+00VDC,+0.02SEC,+2RDNG#"` with
`sample_count_1 = false` yields the values `[0.00123456, 2.0]` and the
timestamps `[0.01, 0.02]`, the reading-count tokens being discarded. -/
theorem data_decode_two_sample_reply :
    data false ("+1.23456E-03VDC,+0.01SEC,+1RDNG#,+2.00000E+00VDC,+0.02SEC,+2RDNG#")
      = ([Action.write ("INIT"), Action.write ("*TRG"), Action.query ("FETCH?")],
         DRes.ok ("+1.23456E-03VDC,+0.01SEC,+1RDNG#,+2.00000E+00VDC,+0.02SEC,+2RDNG#")
           [mkRat 123456 100000000, 2] [mkRat 1 100, mkRat 2 100]) := by
  decide

/-- C8: every `data` call issues exactly the write `"INIT"`, the write
`"*TRG"` and the query `"FETCH?"`, in that order, when `sample_count_1` is
false, and only the query `"FETCH?"` when it is true. -/
theorem data_actions_by_mode (sc : Bool) (reply : String) :
    (data sc reply).1 =
      (if sc = false then
        [Action.write ("INIT"), Action.write ("*TRG"), Action.query ("FETCH?")]
      else [Action.query ("FETCH?")]) := by
  cases sc <;> rfl

/-- C2 counterexample: selecting the rear-panel mode `"SCAN_VOLT:DC"` when
`VOLT:DC` has the two channels `101, 102` ends with `sample_count_1 = false`
as the claim states, but `reading_scan_list` (the code's `scanListActive`
flag) is `false`, not `true`. -/
theorem set_mode_multi_channel_scan_flag_cex :
    (SMRes.stateOf ((set_mode ("SCAN_VOLT:DC") cfg0 st0).2)).sample_count_1 = false ∧
    ¬((SMRes.stateOf ((set_mode ("SCAN_VOLT:DC") cfg0 st0).2)).reading_scan_list = true) := by
  decide

/-- C2 amended: for every measurement function with more than one assigned
channel, the rear multi-channel path of `set_mode` leaves
`sample_count_1 = false` (as claimed), but leaves `reading_scan_list = false`
as well — the flag is set to `true` only on the full scan-list path. -/
theorem set_mode_multi_channel_state (mode0 : String) (cfg : ChannelConfig)
    (st : DriverState) (chans : List String)
    (h1 : strHasSub (pyUpper mode0) ("SCAN") = true)
    (h2 : strHasSub (pyDrop (pyUpper mode0) 5) ("SCAN_LIST") = false)
    (h3 : List.lookup (pyDrop (pyUpper mode0) 5) cfg.modes_channels_dict = some chans)
    (h4 : 2 ≤ chans.length)
    (h5 : ∀ c ∈ chans, countComma c = 0) :
    (set_mode mode0 cfg st).2 =
      SMRes.ok ⟨false, false, pyDrop (pyUpper mode0) 5⟩
        (some ("(@" ++ pyListInner chans ++ ")")) := by
  have hc : countComma ("(@" ++ pyListInner chans ++ ")") = chans.length - 1 := by
    rw [countComma_parens]
    unfold pyListInner
    rw [countComma_joinSep (", ") chans h5]
    have h6 : countComma (", ") = 1 := by decide
    rw [h6]
    omega
  have h4' : ¬(1 + countComma ("(@" ++ pyListInner chans ++ ")") = 1) := by
    rw [hc]
    omega
  rw [set_mode_rear_multi mode0 cfg st chans h1 h2 h3 h4']

/-- C2 witness: the amended statement at `"SCAN_VOLT:DC"` with channels
`101, 102`. -/
theorem set_mode_multi_channel_state_witness :
    2 ≤ (["101", "102"] : List String).length ∧
    (set_mode ("SCAN_VOLT:DC") cfg0 st0).2 =
      SMRes.ok ⟨false, false, pyDrop (pyUpper ("SCAN_VOLT:DC")) 5⟩
        (some ("(@" ++ pyListInner ["101", "102"] ++ ")")) :=
  ⟨by decide,
   set_mode_multi_channel_state ("SCAN_VOLT:DC") cfg0 st0 ["101", "102"]
     (by decide) (by decide) (by decide) (by decide) (by decide)⟩

/-- C3 counterexample: selecting the rear-panel mode `"SCAN_VOLT:DC"` when
`VOLT:DC` has zero assigned channels raises nothing and writes nine commands
(including `ROUT:CLOS (@)` for the empty channel set), refuting the claim
that `set_mode` fails with `ConfigurationError` before any command. -/
theorem set_mode_zero_channels_cex :
    (set_mode ("SCAN_VOLT:DC") cfgEmptyVDC st0).1 =
      ["TRAC:CLE", "INIT:CONT OFF", "TRIG:COUN 1", "SAMP:COUN 1", "INIT:CONT ON",
       "TRIG:SOUR IMM", "ROUT:SCAN:LSEL NONE", "ROUT:CLOS (@)", "FUNC \x27VOLT:DC\x27"] ∧
    SMRes.isOk ((set_mode ("SCAN_VOLT:DC") cfgEmptyVDC st0).2) = true := by
  decide

/-- C3 amended: for every measurement function with zero assigned channels,
the rear-panel `set_mode` does not fail: the rendered channel set is `"(@)"`,
the derived sample count is 1, and the call follows the single-channel path,
emitting buffer-clear, continuous-initiation off, trigger count, sample
count, continuous-initiation on, immediate trigger source, scan disable, a
route close on the empty set and the function select, ending with
`sample_count_1 = true`. -/
theorem set_mode_zero_channels_single_path (mode0 : String) (cfg : ChannelConfig)
    (st : DriverState)
    (h1 : strHasSub (pyUpper mode0) ("SCAN") = true)
    (h2 : strHasSub (pyDrop (pyUpper mode0) 5) ("SCAN_LIST") = false)
    (h3 : List.lookup (pyDrop (pyUpper mode0) 5) cfg.modes_channels_dict = some []) :
    set_mode mode0 cfg st =
      (["TRAC:CLE", "INIT:CONT OFF", "TRIG:COUN 1", "SAMP:COUN 1", "INIT:CONT ON",
        "TRIG:SOUR IMM", "ROUT:SCAN:LSEL NONE", "ROUT:CLOS (@)",
        "FUNC \x27" ++ pyDrop (pyUpper mode0) 5 ++ "\x27"],
       SMRes.ok ⟨true, false, pyDrop (pyUpper mode0) 5⟩ (some ("(@)"))) := by
  have e := set_mode_rear_one mode0 cfg st [] h1 h2 h3 (by decide)
  rw [e]
  rfl

/-- C3 witness: the amended statement at `"SCAN_VOLT:DC"` with the empty
channel assignment of `cfgEmptyVDC`. -/
theorem set_mode_zero_channels_single_path_witness :
    List.lookup (pyDrop (pyUpper ("SCAN_VOLT:DC")) 5) cfgEmptyVDC.modes_channels_dict = some [] ∧
    set_mode ("SCAN_VOLT:DC") cfgEmptyVDC st0 =
      (["TRAC:CLE", "INIT:CONT OFF", "TRIG:COUN 1", "SAMP:COUN 1", "INIT:CONT ON",
        "TRIG:SOUR IMM", "ROUT:SCAN:LSEL NONE", "ROUT:CLOS (@)",
        "FUNC \x27" ++ pyDrop (pyUpper ("SCAN_VOLT:DC")) 5 ++ "\x27"],
       SMRes.ok ⟨true, false, pyDrop (pyUpper ("SCAN_VOLT:DC")) 5⟩ (some ("(@)"))) :=
  ⟨by decide,
   set_mode_zero_channels_single_path ("SCAN_VOLT:DC") cfgEmptyVDC st0
     (by decide) (by decide) (by decide)⟩

/-- C4 counterexample: requesting the full scan-list mode with an empty
configured scan list raises nothing and writes nine commands, refuting the
claim that `set_mode` fails with `ConfigurationError` before any command
with the instrument state unchanged. -/
theorem set_mode_empty_scan_list_cex :
    (set_mode ("SCAN_SCAN_LIST") (ChannelConfig.mk [] ("")) st0).1 ≠ [] ∧
    SMRes.isOk ((set_mode ("SCAN_SCAN_LIST") (ChannelConfig.mk [] ("")) st0).2) = true := by
  decide

/-- C4 amended: when the full scan-list mode is requested and the configured
scan list is empty, `set_mode` does not fail: it emits the complete
scan-list command sequence with sample count 1 and the empty channel set
`"(@)"`, enables the scan, and ends with `sample_count_1 = false`,
`reading_scan_list = true`. -/
theorem set_mode_empty_scan_list_full_sequence (dict : List (String × List String))
    (st : DriverState) :
    set_mode ("SCAN_SCAN_LIST") ⟨dict, ""⟩ st =
      (["TRAC:CLE", "INIT:CONT OFF", "TRIG:COUN 1", "TRIG:SOUR BUS", "SAMP:COUN 1",
        "ROUT:SCAN:LSEL NONE", "ROUT:SCAN (@)", "ROUT:SCAN:TSO IMM", "ROUT:SCAN:LSEL INT"],
       SMRes.ok ⟨false, true, "SCAN_LIST"⟩ (some ("(@)"))) := by
  have e := set_mode_scan_list ("SCAN_SCAN_LIST") ⟨dict, ""⟩ st (by decide) (by decide)
  rw [e]
  have hproj : (ChannelConfig.mk dict ("")).channels_scan_list = ("") := rfl
  rw [hproj]
  rfl

/-- C5 counterexample: the unknown function token `"BOGUS"` does not carry
the rear marker, so `set_mode` succeeds without any validation and sends the
token to the instrument in a `FUNC` command, refuting the claim that unknown
tokens fail with `UnknownModeError` before any command. -/
theorem set_mode_unknown_front_cex :
    SMRes.isOk ((set_mode ("BOGUS") cfg0 st0).2) = true ∧
    (set_mode ("BOGUS") cfg0 st0).1 = ["INIT:CONT ON", "FUNC \x27BOGUS\x27"] := by
  decide

/-- C5 amended: `set_mode` performs no token validation.  A mode string
without the rear marker — unknown or not — is sent as-is in a `FUNC` command
and the call succeeds; a rear-marker mode whose stripped token is neither a
scan-list request nor a key of `modes_channels_dict` raises a Python
`KeyError`, and only after the buffer-clear and continuous-initiation-off
commands have already been written. -/
theorem set_mode_unknown_token_behavior (mode0 : String) (cfg : ChannelConfig)
    (st : DriverState) :
    (strHasSub (pyUpper mode0) ("SCAN") = false →
      set_mode mode0 cfg st =
        (["INIT:CONT ON", "FUNC \x27" ++ pyUpper mode0 ++ "\x27"],
         SMRes.ok ⟨true, false, st.current_mode⟩ none)) ∧
    (strHasSub (pyUpper mode0) ("SCAN") = true →
      strHasSub (pyDrop (pyUpper mode0) 5) ("SCAN_LIST") = false →
      List.lookup (pyDrop (pyUpper mode0) 5) cfg.modes_channels_dict = none →
      set_mode mode0 cfg st =
        (["TRAC:CLE", "INIT:CONT OFF"],
         SMRes.keyError ⟨st.sample_count_1, false, pyDrop (pyUpper mode0) 5⟩
           (pyDrop (pyUpper mode0) 5))) :=
  ⟨set_mode_front mode0 cfg st, set_mode_rear_keyError mode0 cfg st⟩

/-- C5 witness: the rear-marker mode `"SCAN_BOGUS"` raises `KeyError` after
the two preliminary commands. -/
theorem set_mode_unknown_token_behavior_witness :
    set_mode ("SCAN_BOGUS") cfg0 st0 =
      (["TRAC:CLE", "INIT:CONT OFF"], SMRes.keyError ⟨false, false, "BOGUS"⟩ ("BOGUS")) :=
  (set_mode_unknown_token_behavior ("SCAN_BOGUS") cfg0 st0).2 (by decide) (by decide) (by decide)

/-- C6: for every scan list of `n ≥ 2` comma-free channel names, requesting
the full scan-list mode emits exactly, in order: clear buffer, disable
continuous initiation, trigger count 1, trigger source bus, sample count
`n`, scan disable, scan-list programming, immediate scan trigger timing and
scan enable — and the programmed sample count equals `n`. -/
theorem set_mode_scan_list_command_sequence (dict : List (String × List String))
    (st : DriverState) (chs : List String)
    (h2 : 2 ≤ chs.length)
    (hcf : ∀ c ∈ chs, countComma c = 0) :
    set_mode ("SCAN_SCAN_LIST") ⟨dict, joinSep (",") chs⟩ st =
      (["TRAC:CLE", "INIT:CONT OFF", "TRIG:COUN 1", "TRIG:SOUR BUS",
        "SAMP:COUN " ++ Nat.repr chs.length, "ROUT:SCAN:LSEL NONE",
        "ROUT:SCAN " ++ ("(@" ++ joinSep (",") chs ++ ")"),
        "ROUT:SCAN:TSO IMM", "ROUT:SCAN:LSEL INT"],
       SMRes.ok ⟨false, true, "SCAN_LIST"⟩ (some ("(@" ++ joinSep (",") chs ++ ")"))) := by
  have e := set_mode_scan_list ("SCAN_SCAN_LIST") ⟨dict, joinSep (",") chs⟩ st
    (by decide) (by decide)
  rw [e]
  have hproj : (ChannelConfig.mk dict (joinSep (",") chs)).channels_scan_list
      = joinSep (",") chs := rfl
  rw [hproj]
  have hc : countComma ("(@" ++ joinSep (",") chs ++ ")") = chs.length - 1 := by
    rw [countComma_parens, countComma_joinSep (",") chs hcf]
    have h1 : countComma (",") = 1 := by decide
    rw [h1]
    omega
  rw [hc]
  have h3 : 1 + (chs.length - 1) = chs.length := by omega
  rw [h3]
  rfl

/-- C6 witness: the scan list `101,102` programs a sample count of 2. -/
theorem set_mode_scan_list_command_sequence_witness :
    2 ≤ (["101", "102"] : List String).length ∧
    set_mode ("SCAN_SCAN_LIST") ⟨[], joinSep (",") ["101", "102"]⟩ st0 =
      (["TRAC:CLE", "INIT:CONT OFF", "TRIG:COUN 1", "TRIG:SOUR BUS",
        "SAMP:COUN 2", "ROUT:SCAN:LSEL NONE", "ROUT:SCAN (@101,102)",
        "ROUT:SCAN:TSO IMM", "ROUT:SCAN:LSEL INT"],
       SMRes.ok ⟨false, true, "SCAN_LIST"⟩ (some ("(@101,102)"))) :=
  ⟨by decide,
   set_mode_scan_list_command_sequence [] st0 ["101", "102"] (by decide) (by decide)⟩

/-- C10: on every `set_mode` call that completes without raising, the
returned value is `some` channel-set string exactly when the requested mode
carries the rear-panel marker (the uppercased mode contains `"SCAN"`); every
front-panel request returns `None`; and any returned string is the programmed
channel set of that same call: it has the form `"(@...)"` and the command
sequence of the call programs it, in a `ROUT:SCAN` (scan-list and
multi-channel paths) or `ROUT:CLOS` (single-channel path) command. -/
theorem set_mode_return_iff_rear_marker (mode0 : String) (cfg : ChannelConfig)
    (st st' : DriverState) (cmds : List String) (ret : Option String)
    (h : set_mode mode0 cfg st = (cmds, SMRes.ok st' ret)) :
    ((∃ inner, ret = some ("(@" ++ inner ++ ")")) ↔ strHasSub (pyUpper mode0) ("SCAN") = true) ∧
    (strHasSub (pyUpper mode0) ("SCAN") = false → ret = none) ∧
    (∀ s, ret = some s →
      ("ROUT:SCAN " ++ s) ∈ cmds ∨ ("ROUT:CLOS " ++ s) ∈ cmds) := by
  cases hfront : strHasSub (pyUpper mode0) ("SCAN") with
  | false =>
    rw [set_mode_front mode0 cfg st hfront] at h
    injection h with hcmd hres
    injection hres with hst hret
    subst hret
    refine ⟨?_, fun _ => rfl, fun s hs => ?_⟩
    · constructor
      · rintro ⟨inner, hin⟩
        cases hin
      · intro habs
        cases habs
    · cases hs
  | true =>
    cases hsl : strHasSub (pyDrop (pyUpper mode0) 5) ("SCAN_LIST") with
    | true =>
      rw [set_mode_scan_list mode0 cfg st hfront hsl] at h
      injection h with hcmd hres
      injection hres with hst hret
      subst hret
      subst hcmd
      refine ⟨⟨fun _ => rfl, fun _ => ⟨cfg.channels_scan_list, rfl⟩⟩,
        fun habs => ?_, fun s hs => ?_⟩
      · cases habs
      · injection hs with hsv
        subst hsv
        left
        simp
    | false =>
      cases hlook : List.lookup (pyDrop (pyUpper mode0) 5) cfg.modes_channels_dict with
      | none =>
        rw [set_mode_rear_keyError mode0 cfg st hfront hsl hlook] at h
        injection h with hcmd hres
        exact SMRes.noConfusion hres
      | some chans =>
        by_cases hsamp : 1 + countComma ("(@" ++ pyListInner chans ++ ")") = 1
        · rw [set_mode_rear_one mode0 cfg st chans hfront hsl hlook hsamp] at h
          injection h with hcmd hres
          injection hres with hst hret
          subst hret
          subst hcmd
          refine ⟨⟨fun _ => rfl, fun _ => ⟨pyListInner chans, rfl⟩⟩,
            fun habs => ?_, fun s hs => ?_⟩
          · cases habs
          · injection hs with hsv
            subst hsv
            right
            simp
        · rw [set_mode_rear_multi mode0 cfg st chans hfront hsl hlook hsamp] at h
          injection h with hcmd hres
          injection hres with hst hret
          subst hret
          subst hcmd
          refine ⟨⟨fun _ => rfl, fun _ => ⟨pyListInner chans, rfl⟩⟩,
            fun habs => ?_, fun s hs => ?_⟩
          · cases habs
          · injection hs with hsv
            subst hsv
            left
            simp

/-- C10 witness: the rear-panel request `"SCAN_VOLT:DC"` with two channels
returns the channel-set string `"(@101, 102)"`, and that very string is the
one programmed by the call's `ROUT:SCAN` command. -/
theorem set_mode_return_iff_rear_marker_witness :
    ((∃ inner, (some ("(@101, 102)") : Option String) = some ("(@" ++ inner ++ ")")) ↔
      strHasSub (pyUpper ("SCAN_VOLT:DC")) ("SCAN") = true) ∧
    (strHasSub (pyUpper ("SCAN_VOLT:DC")) ("SCAN") = false →
      (some ("(@101, 102)") : Option String) = none) ∧
    (∀ s, (some ("(@101, 102)") : Option String) = some s →
      ("ROUT:SCAN " ++ s) ∈ (["TRAC:CLE", "INIT:CONT OFF", "TRIG:COUN 1", "SAMP:COUN 2",
        "TRIG:SOUR BUS", "ROUT:SCAN:LSEL NONE", "ROUT:SCAN (@101, 102)", "ROUT:SCAN:TSO IMM",
        "ROUT:SCAN:LSEL INT"] : List String) ∨
      ("ROUT:CLOS " ++ s) ∈ (["TRAC:CLE", "INIT:CONT OFF", "TRIG:COUN 1", "SAMP:COUN 2",
        "TRIG:SOUR BUS", "ROUT:SCAN:LSEL NONE", "ROUT:SCAN (@101, 102)", "ROUT:SCAN:TSO IMM",
        "ROUT:SCAN:LSEL INT"] : List String)) :=
  set_mode_return_iff_rear_marker ("SCAN_VOLT:DC") cfg0 st0 ⟨false, false, ("VOLT:DC")⟩
    (["TRAC:CLE", "INIT:CONT OFF", "TRIG:COUN 1", "SAMP:COUN 2", "TRIG:SOUR BUS",
      "ROUT:SCAN:LSEL NONE", "ROUT:SCAN (@101, 102)", "ROUT:SCAN:TSO IMM",
      "ROUT:SCAN:LSEL INT"])
    (some ("(@101, 102)")) (by decide)

end Keithley2100
